import Mathlib

/-
Shallow embedding of the expo-custom-updater package (src/index.js).

The JavaScript module keeps process-wide mutable state: the global
object named updater (fields logs, lastTimeCheck, showDebugInConsole,
default_min_refresh_interval) together with the module-level boolean
isUpdating.  Here that mutable state is one explicit record,
UpdaterState, threaded through each operation.  The external
collaborators (expo-updates and the DEV flag) are modelled by an Env
record whose fields give the outcome of each awaited call: a value on
success or the thrown error message on failure.  Each embedded
operation also returns the ordered trace of external-service calls and
optional-callback invocations it performed, so that properties of the
form "never contacts the update service" are expressible.
-/

deriving instance DecidableEq for Except

namespace ExpoCustomUpdater

/-- External calls and optional callbacks an invocation can perform,
in the order they happen. -/
inductive ServiceCall where
  | checkForUpdate
  | beforeDownload
  | fetchUpdate
  | reload
  | beforeCheck
  | afterCheck
deriving DecidableEq, Repr

/-- Process-wide mutable state of the module: the global updater
object (logs, lastTimeCheck, showDebugInConsole) plus the module-level
isUpdating flag. -/
structure UpdaterState where
  logs : List String
  lastTimeCheck : Nat
  showDebugInConsole : Bool
  isUpdating : Bool
deriving DecidableEq, Repr

/-- Field default_min_refresh_interval of the updater object. -/
def default_min_refresh_interval : Nat := 300

/-- Initial value of the module state: logs is empty, lastTimeCheck is
0, showDebugInConsole is false, and isUpdating starts false. -/
def initialState : UpdaterState :=
  { logs := [], lastTimeCheck := 0, showDebugInConsole := false, isUpdating := false }

/-- Embeds the log helper: pushes the message onto updater.logs.  The
optional console echo has no effect on the state. -/
def log (s : UpdaterState) (message : String) : UpdaterState :=
  { s with logs := s.logs ++ [message] }

/-- Embeds getUnixEpoch: floor of the millisecond clock divided by
1000. -/
def getUnixEpoch (dateNowMs : Nat) : Nat := dateNowMs / 1000

/-- Embeds getUpdateLogs: returns updater.logs. -/
def getUpdateLogs (s : UpdaterState) : List String := s.logs

/-- Outcomes of the external world for one invocation: the DEV flag
and, for each awaited expo-updates call, either its value or the
message of the error it throws. -/
structure Env where
  dev : Bool
  checkForUpdate : Except String Bool
  fetchUpdate : Except String Unit
  reload : Except String Unit
deriving DecidableEq, Repr

/-- Options object of doUpdateIfAvailable.  The optional
beforeDownloadCallback is tracked only as present or absent, since the
embedding records callback invocations in the call trace. -/
structure UpdateOptions where
  beforeDownloadCallback : Bool := false
  throwUpdateErrors : Bool := false
  force : Bool := false
  isStartup : Bool := false
deriving DecidableEq, Repr

/-- Result of one invocation of doUpdateIfAvailable: the returned
boolean or the thrown error message, the state after the invocation,
and the trace of external calls performed. -/
structure DoUpdateResult where
  result : Except String Bool
  state : UpdaterState
  calls : List ServiceCall
deriving DecidableEq, Repr

/-- Embeds doUpdateIfAvailable.  The argument named now is the value
getUnixEpoch produces during this invocation.  The try/finally of the
source guarantees isUpdating is reset on every path that entered the
try block; the guard-rejection path returns before the try block and
so touches neither isUpdating nor lastTimeCheck. -/
def doUpdateIfAvailable (env : Env) (now : Nat) (opts : UpdateOptions)
    (s : UpdaterState) : DoUpdateResult :=
  if s.isUpdating then
    { result := .ok false,
      state := log s "doUpdateIfAvailable: Update already in progress, skipping",
      calls := [] }
  else
    let s1 := { s with isUpdating := true, lastTimeCheck := now }
    if env.dev then
      { result := .ok false,
        state := { log s1 "doUpdateIfAvailable: Unable to update or check for updates in DEV" with
                   isUpdating := false },
        calls := [] }
    else
      let s2 := log s1 "doUpdateIfAvailable: Checking for updates..."
      match env.checkForUpdate with
      | .error e =>
          { result := if opts.throwUpdateErrors then .error e else .ok false,
            state := { log s2 ("doUpdateIfAvailable: ERROR: " ++ e) with isUpdating := false },
            calls := [.checkForUpdate] }
      | .ok isAvailable =>
          let s3 := log s2 ("doUpdateIfAvailable: Update available? " ++ toString isAvailable)
          if !isAvailable && !opts.force then
            { result := .ok false,
              state := { s3 with isUpdating := false },
              calls := [.checkForUpdate] }
          else
            let s4 := log s3 "doUpdateIfAvailable: Fetching Update"
            let preFetch : List ServiceCall :=
              if opts.beforeDownloadCallback then [.checkForUpdate, .beforeDownload]
              else [.checkForUpdate]
            match env.fetchUpdate with
            | .error e =>
                { result := if opts.throwUpdateErrors then .error e else .ok false,
                  state := { log s4 ("doUpdateIfAvailable: ERROR: " ++ e) with
                             isUpdating := false },
                  calls := preFetch ++ [.fetchUpdate] }
            | .ok _ =>
                let s5 := log s4 "updateApp: Update fetched, reloading..."
                match env.reload with
                | .error e =>
                    { result := if opts.throwUpdateErrors then .error e else .ok false,
                      state := { log s5 ("doUpdateIfAvailable: ERROR: " ++ e) with
                                 isUpdating := false },
                      calls := preFetch ++ [.fetchUpdate, .reload] }
                | .ok _ =>
                    { result := .ok true,
                      state := { s5 with isUpdating := false },
                      calls := preFetch ++ [.fetchUpdate, .reload] }

/-- Decides whether the pattern list heads the other list, character
by character. -/
def charsStartWith : List Char → List Char → Bool
  | [], _ => true
  | _ :: _, [] => false
  | a :: as, b :: bs => a == b && charsStartWith as bs

/-- Decides whether the pattern list occurs contiguously anywhere in
the other list. -/
def charsContain : List Char → List Char → Bool
  | pat, [] => charsStartWith pat []
  | pat, c :: rest =>
      charsStartWith pat (c :: rest) || charsContain pat rest

/-- Decides whether pat occurs as a substring of s. -/
def strContains (s pat : String) : Bool := charsContain pat.data s.data

/-- Embeds the JavaScript regex test match slash inactive or
background slash: true when the string has inactive or background as a
substring. -/
def matchInactiveOrBackground (s : String) : Bool :=
  strContains s "inactive" || strContains s "background"

/-- Result of one delivered app-state event: the new value of the
appState ref, the module state afterwards, whether the handler invoked
doUpdateIfAvailable, and the trace of external calls and callbacks. -/
structure HandlerResult where
  appState : String
  state : UpdaterState
  cycleTriggered : Bool
  calls : List ServiceCall
deriving DecidableEq, Repr

/-- Embeds the handler named with a leading underscore in the source,
handleAppStateChange, of the useCustomUpdater hook.  Hook
configuration enters as minRefreshSeconds, the presence flags of the
three optional callbacks, and throwUpdateErrors; mounted and
appStateCur are the refs the handler reads; now is the value
getUnixEpoch produces during this event. -/
def handleAppStateChange (mounted : Bool) (appStateCur : String)
    (nextAppState : String) (env : Env) (now : Nat) (minRefreshSeconds : Int)
    (beforeCheckCallback beforeDownloadCallback afterCheckCallback : Bool)
    (throwUpdateErrors : Bool) (s : UpdaterState) : HandlerResult :=
  if !mounted then
    { appState := appStateCur, state := s, cycleTriggered := false, calls := [] }
  else
    let isBackToApp := matchInactiveOrBackground appStateCur && (nextAppState == "active")
    let isTimeToCheck := ((now : Int) - (s.lastTimeCheck : Int)) > minRefreshSeconds
    let s1 := log s ("appStateChangeHandler: AppState: " ++ nextAppState ++
                     ", NeedToCheckForUpdate? " ++ toString (isBackToApp && isTimeToCheck))
    if !isTimeToCheck || !isBackToApp then
      let s2 := if isBackToApp && !isTimeToCheck then
                  log s1 "appStateChangeHandler: Skip check, within refresh time"
                else s1
      { appState := nextAppState, state := s2, cycleTriggered := false, calls := [] }
    else
      let preCalls : List ServiceCall :=
        if beforeCheckCallback then [.beforeCheck] else []
      let r := doUpdateIfAvailable env now
        { beforeDownloadCallback := beforeDownloadCallback,
          throwUpdateErrors := throwUpdateErrors } s1
      match r.result with
      | .error e =>
          { appState := nextAppState,
            state := log r.state ("AppState update error: " ++ e),
            cycleTriggered := true,
            calls := preCalls ++ r.calls }
      | .ok _ =>
          { appState := nextAppState,
            state := r.state,
            cycleTriggered := true,
            calls := preCalls ++ r.calls ++
              (if afterCheckCallback then [.afterCheck] else []) }

/-- Embeds performUpdate of the useCustomUpdater hook, the startup
retry wrapper.  Attempt number k runs against environment (step k).1
at clock value (step k).2; retryCount is the ref of the hook;
attempts counts the doUpdateIfAvailable invocations made so far, so
the returned number is the total attempts performed. -/
def performUpdate (step : Nat → Env × Nat)
    (beforeDownloadCallback throwUpdateErrors : Bool)
    (maxRetries : Nat) (retryCount : Nat) (s : UpdaterState)
    (attempts : Nat) : Except String Bool × UpdaterState × Nat :=
  let r := doUpdateIfAvailable (step attempts).1 (step attempts).2
    { beforeDownloadCallback := beforeDownloadCallback,
      throwUpdateErrors := throwUpdateErrors,
      isStartup := true } s
  match r.result with
  | .ok b => (.ok b, r.state, attempts + 1)
  | .error e =>
      let s1 := log r.state ("Update error: " ++ e)
      if h : retryCount < maxRetries then
        performUpdate step beforeDownloadCallback throwUpdateErrors
          maxRetries (retryCount + 1) s1 (attempts + 1)
      else
        (.error e, s1, attempts + 1)
termination_by maxRetries - retryCount
decreasing_by omega

/-- Result of the startup init function: the isInitialMount ref after
the call, the module state, and the number of doUpdateIfAvailable
attempts performed.  The function is wrapped in Except so that an
error escaping to the embedder would appear as an error value. -/
structure InitResult where
  isInitialMount : Bool
  state : UpdaterState
  attempts : Nat
deriving DecidableEq, Repr

/-- Embeds init of the useCustomUpdater hook.  When updateOnStartup,
isInitialMount and mounted all hold, it clears isInitialMount, runs
performUpdate, and catches any error it re-raises, logging the Init
error message and continuing; the catch has no rethrow, so every path
returns a normal value. -/
def init (step : Nat → Env × Nat) (updateOnStartup : Bool)
    (isInitialMount mounted : Bool)
    (beforeDownloadCallback throwUpdateErrors : Bool)
    (maxRetries : Nat) (s : UpdaterState) : Except String InitResult :=
  if updateOnStartup && isInitialMount && mounted then
    let r := performUpdate step beforeDownloadCallback throwUpdateErrors
      maxRetries 0 s 0
    match r.1 with
    | .ok _ =>
        .ok { isInitialMount := false, state := r.2.1, attempts := r.2.2 }
    | .error e =>
        .ok { isInitialMount := false,
              state := log r.2.1 ("Init error: " ++ e),
              attempts := r.2.2 }
  else
    .ok { isInitialMount := isInitialMount, state := s, attempts := 0 }

/-- Environment in which every external call succeeds and an update is
available. -/
def envAllOk : Env :=
  { dev := false, checkForUpdate := .ok true, fetchUpdate := .ok (), reload := .ok () }

/-- Environment in which every external call succeeds but no update is
available. -/
def envNoUpdate : Env :=
  { dev := false, checkForUpdate := .ok false, fetchUpdate := .ok (), reload := .ok () }

/-- Environment in which checkForUpdateAsync throws. -/
def envCheckThrows : Env :=
  { dev := false, checkForUpdate := .error "Network request failed",
    fetchUpdate := .ok (), reload := .ok () }

/-- Environment of a development build. -/
def envDev : Env :=
  { dev := true, checkForUpdate := .ok false, fetchUpdate := .ok (), reload := .ok () }

/-- Attempt schedule in which every attempt runs against the throwing
check environment, with the clock advancing one second per attempt. -/
def stepFail : Nat → Env × Nat := fun k => (envCheckThrows, 10 + k)

/-- Module state while an update cycle is in flight. -/
def busyState : UpdaterState := { initialState with isUpdating := true }

/-- Evaluation lemma shared by several proofs: a non-rejected,
non-development invocation whose availability check throws message e
logs the error, clears the flag, and converts the error to false
unless throwUpdateErrors is set. -/
theorem doUpdateIfAvailable_check_error (env : Env) (now : Nat)
    (opts : UpdateOptions) (s : UpdaterState) (e : String)
    (hs : s.isUpdating = false) (hdev : env.dev = false)
    (hchk : env.checkForUpdate = Except.error e) :
    doUpdateIfAvailable env now opts s =
      { result := if opts.throwUpdateErrors then .error e else .ok false,
        state := { s with
                   lastTimeCheck := now
                   isUpdating := false
                   logs := s.logs ++ ["doUpdateIfAvailable: Checking for updates...",
                                      "doUpdateIfAvailable: ERROR: " ++ e] },
        calls := [.checkForUpdate] } := by
  unfold doUpdateIfAvailable
  rw [hs, hdev, hchk]
  simp [log]

/-- Claim C1: an invocation of doUpdateIfAvailable issued while isUpdating
is true appends the skip log entry, returns false, performs no external
service call, and leaves the rest of the state, in particular
lastTimeCheck and the isUpdating flag, untouched. -/
theorem guard_rejected_invocation_is_noop (env : Env) (now : Nat)
    (opts : UpdateOptions) (s : UpdaterState) (h : s.isUpdating = true) :
    doUpdateIfAvailable env now opts s =
      { result := .ok false,
        state := log s "doUpdateIfAvailable: Update already in progress, skipping",
        calls := [] } ∧
    (doUpdateIfAvailable env now opts s).state.lastTimeCheck = s.lastTimeCheck := by
  unfold doUpdateIfAvailable
  rw [h]
  simp [log]

/-- Witness for claim C1 at a concrete busy state. -/
theorem guard_rejected_invocation_is_noop_witness :
    doUpdateIfAvailable envAllOk 7 {} busyState =
      { result := .ok false,
        state := log busyState "doUpdateIfAvailable: Update already in progress, skipping",
        calls := [] } ∧
    (doUpdateIfAvailable envAllOk 7 {} busyState).state.lastTimeCheck =
      busyState.lastTimeCheck :=
  guard_rejected_invocation_is_noop envAllOk 7 {} busyState (by decide)

/-- Claim C2 counterexample: an invocation rejected by the exclusivity
guard completes with isUpdating still true, not false; the flag is held by
the in-flight cycle and the rejected call returns before the try/finally
block that clears it. -/
theorem guard_rejection_flag_counterexample :
    ¬ (doUpdateIfAvailable envAllOk 7 {} busyState).state.isUpdating = false := by
  decide

/-- Claim C2 (amended): after every invocation of doUpdateIfAvailable that
passes the exclusivity guard, isUpdating is false on every path, whether
the call returns true, returns false, or throws with throwUpdateErrors
enabled; an invocation rejected by the guard instead leaves the flag
unchanged, still true and held by the in-flight cycle. -/
theorem isUpdating_false_after_completed_invocation (env : Env) (now : Nat)
    (opts : UpdateOptions) (s : UpdaterState) :
    (s.isUpdating = false →
      (doUpdateIfAvailable env now opts s).state.isUpdating = false) ∧
    (s.isUpdating = true →
      (doUpdateIfAvailable env now opts s).state.isUpdating = true) := by
  constructor
  · intro h
    unfold doUpdateIfAvailable
    rw [h]
    simp only [Bool.false_eq_true, if_false]
    repeat' split
    all_goals rfl
  · intro h
    unfold doUpdateIfAvailable
    rw [h]
    simp [log, h]

/-- Witness for amended claim C2 at a concrete idle state and a concrete
busy state. -/
theorem isUpdating_false_after_completed_invocation_witness :
    (doUpdateIfAvailable envAllOk 7 {} initialState).state.isUpdating = false ∧
    (doUpdateIfAvailable envAllOk 7 {} busyState).state.isUpdating = true :=
  ⟨(isUpdating_false_after_completed_invocation envAllOk 7 {} initialState).1 (by decide),
   (isUpdating_false_after_completed_invocation envAllOk 7 {} busyState).2 (by decide)⟩

/-- Evaluation lemma: on the concrete always-failing schedule stepFail
with maxRetries 2, performUpdate makes three attempts, accumulates the
three error and retry log entries per attempt, and ends in the error of
the last attempt. -/
theorem performUpdate_stepFail_eval :
    performUpdate stepFail false true 2 0 initialState 0 =
      (Except.error "Network request failed",
       { logs := ["doUpdateIfAvailable: Checking for updates...",
                  "doUpdateIfAvailable: ERROR: Network request failed",
                  "Update error: Network request failed",
                  "doUpdateIfAvailable: Checking for updates...",
                  "doUpdateIfAvailable: ERROR: Network request failed",
                  "Update error: Network request failed",
                  "doUpdateIfAvailable: Checking for updates...",
                  "doUpdateIfAvailable: ERROR: Network request failed",
                  "Update error: Network request failed"]
         lastTimeCheck := 12
         showDebugInConsole := false
         isUpdating := false },
       3) := by
  rw [performUpdate.eq_def]
  rw [doUpdateIfAvailable_check_error _ _ _ _ "Network request failed" rfl rfl rfl]
  simp [log]
  rw [performUpdate.eq_def]
  rw [doUpdateIfAvailable_check_error _ _ _ _ "Network request failed" rfl rfl rfl]
  simp [log]
  rw [performUpdate.eq_def]
  rw [doUpdateIfAvailable_check_error _ _ _ _ "Network request failed" rfl rfl rfl]
  simp [log, initialState, stepFail]

/-- Claim C3 counterexample: on a concrete startup run in which every
attempt fails with throwUpdateErrors enabled and maxRetries 2, init
returns a normal value, not an error: performUpdate re-raises the last
error to init, but the catch block of init logs the Init error entry
and continues, so no error is re-raised to the embedder. -/
theorem startup_error_swallowed_by_init_counterexample :
    init stepFail true true true false true 2 initialState =
      Except.ok
        { isInitialMount := false
          state := { logs := ["doUpdateIfAvailable: Checking for updates...",
                              "doUpdateIfAvailable: ERROR: Network request failed",
                              "Update error: Network request failed",
                              "doUpdateIfAvailable: Checking for updates...",
                              "doUpdateIfAvailable: ERROR: Network request failed",
                              "Update error: Network request failed",
                              "doUpdateIfAvailable: Checking for updates...",
                              "doUpdateIfAvailable: ERROR: Network request failed",
                              "Update error: Network request failed",
                              "Init error: Network request failed"]
                     lastTimeCheck := 12
                     showDebugInConsole := false
                     isUpdating := false }
          attempts := 3 } := by
  simp [init, performUpdate_stepFail_eval, log]

/-- Claim C3 (amended): with maxRetries equal to 2 and every startup
attempt failing while throwUpdateErrors is enabled, performUpdate makes
exactly three doUpdateIfAvailable attempts, the initial one plus two
retries, and re-raises the error of the last attempt to its caller
init; init catches that error, appends the Init error log entry, and
completes normally, so the error does not propagate to the embedder. -/
theorem startup_retry_exhausts_and_init_catches (step : Nat → Env × Nat)
    (m : Nat → String) (beforeDownloadCallback : Bool) (s : UpdaterState)
    (hs : s.isUpdating = false)
    (hdev : ∀ k, (step k).1.dev = false)
    (hchk : ∀ k, (step k).1.checkForUpdate = Except.error (m k)) :
    (performUpdate step beforeDownloadCallback true 2 0 s 0).2.2 = 3 ∧
    (performUpdate step beforeDownloadCallback true 2 0 s 0).1 =
      Except.error (m 2) ∧
    init step true true true beforeDownloadCallback true 2 s =
      Except.ok
        { isInitialMount := false
          state := log (performUpdate step beforeDownloadCallback true 2 0 s 0).2.1
                     ("Init error: " ++ m 2)
          attempts := 3 } := by
  have hA : (performUpdate step beforeDownloadCallback true 2 0 s 0).2.2 = 3 ∧
      (performUpdate step beforeDownloadCallback true 2 0 s 0).1 =
        Except.error (m 2) := by
    rw [performUpdate.eq_def]
    rw [doUpdateIfAvailable_check_error _ _ _ _ _ hs (hdev 0) (hchk 0)]
    simp
    rw [performUpdate.eq_def]
    rw [doUpdateIfAvailable_check_error _ _ _ _ _ rfl (hdev 1) (hchk 1)]
    simp
    rw [performUpdate.eq_def]
    rw [doUpdateIfAvailable_check_error _ _ _ _ _ rfl (hdev 2) (hchk 2)]
    simp
  refine ⟨hA.1, hA.2, ?_⟩
  unfold init
  simp only [Bool.and_self, if_true]
  rw [hA.2]
  simp only []
  rw [hA.1]

/-- Witness for amended claim C3 on the concrete always-failing
schedule. -/
theorem startup_retry_exhausts_and_init_catches_witness :
    (performUpdate stepFail false true 2 0 initialState 0).2.2 = 3 ∧
    (performUpdate stepFail false true 2 0 initialState 0).1 =
      Except.error "Network request failed" ∧
    init stepFail true true true false true 2 initialState =
      Except.ok
        { isInitialMount := false
          state := log (performUpdate stepFail false true 2 0 initialState 0).2.1
                     ("Init error: " ++ "Network request failed")
          attempts := 3 } :=
  startup_retry_exhausts_and_init_catches stepFail
    (fun _ => "Network request failed") false initialState (by decide)
    (fun _ => rfl) (fun _ => rfl)

/-- Claim C4: with minRefreshSeconds equal to 300, a foreground edge 299
seconds after lastCheckTimestamp triggers no update cycle, while one 301
seconds after it does; the elapsed-time comparison is strict. -/
theorem foreground_refresh_window_is_strict (env : Env) (t : Nat)
    (s : UpdaterState) (bc bd ac te : Bool) :
    (handleAppStateChange true "background" "active" env (t + 299) 300
        bc bd ac te { s with lastTimeCheck := t }).cycleTriggered = false ∧
    (handleAppStateChange true "background" "active" env (t + 301) 300
        bc bd ac te { s with lastTimeCheck := t }).cycleTriggered = true := by
  constructor
  · unfold handleAppStateChange
    have hb : matchInactiveOrBackground "background" = true := by decide
    simp [hb]
  · unfold handleAppStateChange
    have hb : matchInactiveOrBackground "background" = true := by decide
    have ht : (((t + 301 : Nat) : Int) - ((t : Nat) : Int)) > (300 : Int) := by
      push_cast
      omega
    simp [hb, ht]
    cases hr : (doUpdateIfAvailable env (t + 301)
        { beforeDownloadCallback := bd, throwUpdateErrors := te }
        (log { s with lastTimeCheck := t }
          ("appStateChangeHandler: AppState: active, NeedToCheckForUpdate? " ++
            toString true))).result <;>
      simp [hr]

/-- Claim C5: in a development build every invocation that passes the
exclusivity guard returns false and performs no external service call. -/
theorem dev_mode_returns_false_without_service_calls (env : Env) (now : Nat)
    (opts : UpdateOptions) (s : UpdaterState)
    (hdev : env.dev = true) (hs : s.isUpdating = false) :
    (doUpdateIfAvailable env now opts s).result = .ok false ∧
    (doUpdateIfAvailable env now opts s).calls = [] := by
  unfold doUpdateIfAvailable
  rw [hs, hdev]
  simp

/-- Witness for claim C5 in a concrete development environment. -/
theorem dev_mode_returns_false_without_service_calls_witness :
    (doUpdateIfAvailable envDev 7 {} initialState).result = .ok false ∧
    (doUpdateIfAvailable envDev 7 {} initialState).calls = [] :=
  dev_mode_returns_false_without_service_calls envDev 7 {} initialState rfl (by decide)

/-- Claim C6: with throwUpdateErrors false, a throwing availability check
is caught, the invocation returns false rather than propagating the
error, and the log sequence gains an entry carrying the error message. -/
theorem check_error_swallowed_and_logged (env : Env) (now : Nat)
    (bd f st : Bool) (s : UpdaterState) (e : String)
    (hs : s.isUpdating = false) (hdev : env.dev = false)
    (hchk : env.checkForUpdate = Except.error e) :
    (doUpdateIfAvailable env now
        { beforeDownloadCallback := bd, throwUpdateErrors := false,
          force := f, isStartup := st } s).result = .ok false ∧
    (doUpdateIfAvailable env now
        { beforeDownloadCallback := bd, throwUpdateErrors := false,
          force := f, isStartup := st } s).state.logs =
      s.logs ++ ["doUpdateIfAvailable: Checking for updates...",
                 "doUpdateIfAvailable: ERROR: " ++ e] := by
  rw [doUpdateIfAvailable_check_error _ _ _ _ _ hs hdev hchk]
  simp

/-- Witness for claim C6 with a concrete failing check. -/
theorem check_error_swallowed_and_logged_witness :
    (doUpdateIfAvailable envCheckThrows 7
        { beforeDownloadCallback := false, throwUpdateErrors := false,
          force := false, isStartup := false } initialState).result = .ok false ∧
    (doUpdateIfAvailable envCheckThrows 7
        { beforeDownloadCallback := false, throwUpdateErrors := false,
          force := false, isStartup := false } initialState).state.logs =
      initialState.logs ++ ["doUpdateIfAvailable: Checking for updates...",
                            "doUpdateIfAvailable: ERROR: " ++ "Network request failed"] :=
  check_error_swallowed_and_logged envCheckThrows 7 false false false initialState
    "Network request failed" (by decide) rfl rfl

/-- Claim C7: with force set, a non-development, non-rejected invocation
whose availability check reports no update still invokes the provided
beforeDownloadCallback, fetches the update, and applies it by reloading,
returning true. -/
theorem force_proceeds_when_unavailable (env : Env) (now : Nat)
    (te st : Bool) (s : UpdaterState)
    (hs : s.isUpdating = false) (hdev : env.dev = false)
    (hchk : env.checkForUpdate = Except.ok false)
    (hfetch : env.fetchUpdate = Except.ok ())
    (hreload : env.reload = Except.ok ()) :
    (doUpdateIfAvailable env now
        { beforeDownloadCallback := true, throwUpdateErrors := te,
          force := true, isStartup := st } s).calls =
      [.checkForUpdate, .beforeDownload, .fetchUpdate, .reload] ∧
    (doUpdateIfAvailable env now
        { beforeDownloadCallback := true, throwUpdateErrors := te,
          force := true, isStartup := st } s).result = .ok true := by
  unfold doUpdateIfAvailable
  rw [hs, hdev, hchk, hfetch, hreload]
  simp

/-- Witness for claim C7 in a concrete no-update environment. -/
theorem force_proceeds_when_unavailable_witness :
    (doUpdateIfAvailable envNoUpdate 7
        { beforeDownloadCallback := true, throwUpdateErrors := false,
          force := true, isStartup := false } initialState).calls =
      [.checkForUpdate, .beforeDownload, .fetchUpdate, .reload] ∧
    (doUpdateIfAvailable envNoUpdate 7
        { beforeDownloadCallback := true, throwUpdateErrors := false,
          force := true, isStartup := false } initialState).result = .ok true :=
  force_proceeds_when_unavailable envNoUpdate 7 false false initialState
    (by decide) rfl rfl rfl rfl

/-- Claim C8: an app-state event whose previous observed value is active
never triggers an update cycle and performs no calls, whatever the elapsed
time; and, for any previous value, the stored previous-lifecycle ref is
set to the new value on every event the mounted handler receives. -/
theorem previous_active_never_triggers (prev next : String) (env : Env)
    (now : Nat) (minR : Int) (bc bd ac te : Bool) (s : UpdaterState) :
    (handleAppStateChange true "active" next env now minR bc bd ac te s).cycleTriggered
      = false ∧
    (handleAppStateChange true "active" next env now minR bc bd ac te s).calls = [] ∧
    (handleAppStateChange true prev next env now minR bc bd ac te s).appState = next := by
  refine ⟨?_, ?_, ?_⟩
  · unfold handleAppStateChange
    have hb : matchInactiveOrBackground "active" = false := by decide
    simp [hb]
  · unfold handleAppStateChange
    have hb : matchInactiveOrBackground "active" = false := by decide
    simp [hb]
  · unfold handleAppStateChange
    simp only [Bool.not_true, Bool.false_eq_true, if_false]
    split
    · rfl
    · split <;> rfl

/-- Claim C9: lastCheckTimestamp starts at 0; getUnixEpoch is monotone in
the clock; a guard-rejected invocation leaves lastTimeCheck unchanged
while every other invocation sets it to the current time at the start of
the attempt; hence under a non-decreasing clock the field never
decreases. -/
theorem lastTimeCheck_monotone (env : Env) (now : Nat)
    (opts : UpdateOptions) (s : UpdaterState) (h : s.lastTimeCheck ≤ now) :
    initialState.lastTimeCheck = 0 ∧
    (∀ a b : Nat, a ≤ b → getUnixEpoch a ≤ getUnixEpoch b) ∧
    (doUpdateIfAvailable env now opts s).state.lastTimeCheck =
      (if s.isUpdating then s.lastTimeCheck else now) ∧
    s.lastTimeCheck ≤ (doUpdateIfAvailable env now opts s).state.lastTimeCheck := by
  have h3 : (doUpdateIfAvailable env now opts s).state.lastTimeCheck =
      (if s.isUpdating then s.lastTimeCheck else now) := by
    cases hu : s.isUpdating
    · unfold doUpdateIfAvailable
      rw [hu]
      simp only [Bool.false_eq_true, if_false]
      repeat' split
      all_goals rfl
    · unfold doUpdateIfAvailable
      rw [hu]
      simp [log]
  refine ⟨rfl, fun a b hab => Nat.div_le_div_right hab, h3, ?_⟩
  rw [h3]
  cases hu : s.isUpdating <;> simp [h]

/-- Witness for claim C9 at the initial state and a concrete clock. -/
theorem lastTimeCheck_monotone_witness :
    (doUpdateIfAvailable envAllOk 7 {} initialState).state.lastTimeCheck =
      (if initialState.isUpdating then initialState.lastTimeCheck else 7) ∧
    initialState.lastTimeCheck ≤
      (doUpdateIfAvailable envAllOk 7 {} initialState).state.lastTimeCheck :=
  ⟨(lastTimeCheck_monotone envAllOk 7 {} initialState (by decide)).2.2.1,
   (lastTimeCheck_monotone envAllOk 7 {} initialState (by decide)).2.2.2⟩

/-- Claim C10: force bypasses only the availability gate; a forced
invocation is still rejected by the exclusivity guard, and still returns
false without external calls in a development build. -/
theorem force_respects_guard_and_dev_gates (env : Env) (now : Nat)
    (opts : UpdateOptions) (s : UpdaterState) :
    (s.isUpdating = true →
      (doUpdateIfAvailable env now { opts with force := true } s).result = .ok false ∧
      (doUpdateIfAvailable env now { opts with force := true } s).calls = []) ∧
    (s.isUpdating = false → env.dev = true →
      (doUpdateIfAvailable env now { opts with force := true } s).result = .ok false ∧
      (doUpdateIfAvailable env now { opts with force := true } s).calls = []) := by
  constructor
  · intro h
    unfold doUpdateIfAvailable
    rw [h]
    simp
  · intro hs hdev
    unfold doUpdateIfAvailable
    rw [hs, hdev]
    simp

/-- Witness for claim C10: a forced call against a busy state and a forced
call in a development environment. -/
theorem force_respects_guard_and_dev_gates_witness :
    ((doUpdateIfAvailable envAllOk 7 { force := true } busyState).result = .ok false ∧
     (doUpdateIfAvailable envAllOk 7 { force := true } busyState).calls = []) ∧
    ((doUpdateIfAvailable envDev 7 { force := true } initialState).result = .ok false ∧
     (doUpdateIfAvailable envDev 7 { force := true } initialState).calls = []) :=
  ⟨(force_respects_guard_and_dev_gates envAllOk 7 {} busyState).1 (by decide),
   (force_respects_guard_and_dev_gates envDev 7 {} initialState).2 (by decide) rfl⟩

end ExpoCustomUpdater
